import Mathlib

/-!
Shallow embedding of `src/main.rs` of AsciiArtist, an image-to-ASCII-art
converter.  The arithmetic of the source is f32, and wherever its
rounding is observable the embedding is bit-accurate: `f32round` models
IEEE round-to-nearest-even at 24-bit precision, and `new_height`,
`brightness` and `original_coord_f32` apply it to every conversion and
operation of the corresponding source expressions.  The glyph-index
computation `char_index` is the one place kept in exact rationals: for
every luminance 0..=255 and every charset below 33000 bytes the f32
evaluation of line 152 rounds to the same index as the exact formula,
because the exact product is never closer than 1/510 to a rounding
boundary while the accumulated f32 error stays strictly smaller, so the
two are bit-identical on all reachable inputs.  `original_coord` states
the exact-arithmetic nearest-neighbour formula next to its f32
counterpart `original_coord_f32`.
-/

/-- RGB pixel as read from the decoded image; each channel is a `u8`
value in `0..=255` (the model carries `Nat` and states the bound where
needed). -/
structure Pixel where
  r : Nat
  g : Nat
  b : Nat
  deriving DecidableEq

/-- Decoded image as exposed by the image crate: dimensions plus pixel
lookup.  The lookup is total in the model; the source `get_pixel`
aborts when given out-of-bounds coordinates, which is why staying in
bounds matters. -/
structure Image where
  width : Nat
  height : Nat
  pix : Nat → Nat → Pixel

/-- Command-line arguments after parsing (struct `Args` in main.rs),
restricted to the fields the renderer reads.  The aspect factor is the
f32 value clap parsed, an exactly representable rational taken as
given. -/
structure Args where
  width : Nat
  charset : String
  color : Bool
  aspect_ratio_compensation : ℚ

/-- Largest `u32` value, the saturation bound of Rust float-to-`u32`
casts. -/
def U32MAX : Nat := 4294967295

/-- Rust `q.round() as u32` on a finite value.  Rust rounds ties away
from zero while Mathlib `round` rounds ties up; the two differ only on
negative ties, and every negative result saturates to 0 under the cast
either way, so `Int.toNat` after Mathlib `round` is exact. -/
def roundU32 (q : ℚ) : Nat :=
  min U32MAX (round q).toNat

/-- Floor of the base-2 logarithm of a positive natural number below 2
to the 128 (the whole finite f32 range), computed as the number of
powers of two not exceeding it. -/
def flog2 (n : Nat) : Nat :=
  ((List.range 128).filter fun k => 2 ^ k ≤ n).length - 1

/-- Floor of the base-2 logarithm of a positive rational whose value
and reciprocal stay below 2 to the 128. -/
def blog2 (q : ℚ) : ℤ :=
  if 1 ≤ q then (flog2 ⌊q⌋.toNat : ℤ)
  else
    if 1 / q = (2 : ℚ) ^ flog2 ⌊1 / q⌋.toNat then -(flog2 ⌊1 / q⌋.toNat : ℤ)
    else -(flog2 ⌊1 / q⌋.toNat : ℤ) - 1

/-- Round a rational to the nearest integer, ties to even (the IEEE 754
default rounding used for the f32 significand). -/
def rne (s : ℚ) : ℤ :=
  if s - ⌊s⌋ < 1 / 2 then ⌊s⌋
  else if 1 / 2 < s - ⌊s⌋ then ⌊s⌋ + 1
  else if ⌊s⌋ % 2 = 0 then ⌊s⌋ else ⌊s⌋ + 1

/-- Bit-accurate f32 rounding of a positive rational in the normal
range: scale to a 24-bit significand and round to nearest, ties to
even.  An input of zero returns 0, exactly as f32 does.  Negative
inputs (reachable only through a negative aspect factor) also return 0;
the source would carry a negative f32 there, but every such value is
consumed by a float-to-unsigned cast that maps it to 0 as well, so the
final results agree.  Overflow and subnormals lie outside the
magnitudes used here and are not modelled. -/
def f32round (q : ℚ) : ℚ :=
  if q ≤ 0 then 0
  else (rne (q / 2 ^ (blog2 q - 23)) : ℚ) * 2 ^ (blog2 q - 23)

/-- Line 138 of main.rs:
`let new_height = (output_width as f32 * image_aspect_ratio * aspect_ratio_compensation).round() as u32`
with `image_aspect_ratio = original_height as f32 / original_width as f32`,
modelled bit-accurately: the two u32-to-f32 conversions of the image
dimensions, the conversion of the target width, the aspect division and
both products each round to the nearest f32; the aspect factor is the
f32 value clap parsed and is taken as given.  For `w > 0` the chain is
finite.  For `w = 0` the f32 aspect ratio is `inf` (when `h > 0`) or
`NaN` (when `h = 0`): a zero target width or zero height makes the
final product NaN, which the cast maps to 0, and otherwise the product
is an infinity, which saturates to `u32::MAX` when the aspect factor is
positive and to 0 when it is zero or negative (NaN or `-inf`). -/
def new_height (tw w h : Nat) (af : ℚ) : Nat :=
  if w ≠ 0 then
    roundU32 (f32round (f32round (f32round (tw : ℚ) *
      f32round (f32round (h : ℚ) / f32round (w : ℚ))) * af))
  else if tw = 0 ∨ h = 0 then 0
  else if 0 < af then U32MAX else 0

/-- Lines 143-144 of main.rs:
`(v as f32 / n as f32 * size as f32) as u32`, the nearest-neighbour
source coordinate for output index `v` out of `n` cells along an axis
of `size` source pixels, in exact arithmetic.  The cast truncates
toward zero, i.e. takes the floor of the nonnegative quotient.  Both
call sites have `n > 0` because they sit inside `for` loops over
`0..n`.  The bit-accurate f32 counterpart is `original_coord_f32`
below. -/
def original_coord (v n size : Nat) : Nat :=
  min U32MAX (⌊(v : ℚ) / (n : ℚ) * (size : ℚ)⌋).toNat

/-- Line 150 of main.rs:
`let brightness = (0.2126 * r as f32 + 0.7152 * g as f32 + 0.0722 * b as f32) as u8`,
modelled bit-accurately: each decimal literal stands for its nearest
f32 (its `f32round`), and each product and each left-associated sum
rounds to the nearest f32; the u8-to-f32 conversions of the channels
are exact.  The final f32-to-u8 cast truncates toward zero and
saturates to `0..=255`; the sum is nonnegative, so only the upper clamp
can act. -/
def brightness (p : Pixel) : Nat :=
  min 255 (⌊f32round (f32round (f32round (f32round (0.2126 : ℚ) * p.r) +
    f32round (f32round (0.7152 : ℚ) * p.g)) +
    f32round (f32round (0.0722 : ℚ) * p.b))⌋).toNat

/-- Line 152 of main.rs:
`let char_index = (brightness as f32 / 255.0 * (ascii_chars.len() - 1) as f32).round() as usize`.
Rust `String::len` is the UTF-8 byte length, modelled by
`String.utf8ByteSize`.  The subtraction is on `usize`: for an empty
charset it wraps around (release semantics), making every computed
index fall outside the character sequence; the model uses truncated
`Nat` subtraction, whose index 0 is likewise outside the empty
sequence, so the emitted glyph agrees.  For nonempty charsets the two
subtractions coincide.  The rounded value is nonnegative, so the
ties-away-from-zero f32 rounding agrees with Mathlib `round`.  The
computation itself is kept in exact rationals: for every luminance
0..=255 and every charset below 33000 bytes the f32 evaluation rounds
to the same index, since the exact product is at least 1/510 away from
the nearest rounding boundary while the f32 error is strictly
smaller. -/
def char_index (ramp : String) (L : Nat) : Nat :=
  (round ((L : ℚ) / 255 * ((ramp.utf8ByteSize - 1 : Nat) : ℚ))).toNat

/-- Line 153 of main.rs:
`let ascii_char = ascii_chars.chars().nth(char_index).unwrap_or(' ')`:
the character at the computed index, or a space when the index is out
of bounds of the character sequence. -/
def ascii_char (ramp : String) (L : Nat) : Char :=
  (ramp.data.get? (char_index ramp L)).getD ' '

/-- One emitted cell: the glyph together with the colour payload the
source attaches when `--color` is enabled (lines 156-162 of main.rs). -/
structure Cell where
  ch : Char
  color : Option Pixel
  deriving DecidableEq

/-- Body of the inner loop (lines 142-162 of main.rs): sample the
nearest-neighbour source pixel, compute its brightness, pick the glyph,
and attach the pixel colour when colour output is enabled. -/
def renderCell (a : Args) (img : Image) (nh x y : Nat) : Cell :=
  let p := img.pix (original_coord x a.width img.width) (original_coord y nh img.height)
  { ch := ascii_char a.charset (brightness p)
    color := if a.color then some p else none }

/-- The output grid produced by the nested loops of lines 141-164 of
main.rs: `new_height` rows of `width` cells each. -/
def render (a : Args) (img : Image) : List (List Cell) :=
  (List.range (new_height a.width img.width img.height a.aspect_ratio_compensation)).map
    fun y => (List.range a.width).map
      fun x => renderCell a img (new_height a.width img.width img.height a.aspect_ratio_compensation) x y

/-- Behaviour of `main` after a successful image load, with terminal
writes assumed to succeed.  The source contains no configuration
validation whatsoever: the only fallible steps of `main` are image
decoding and terminal I/O, so the rendering body never constructs an
error value. -/
def run_main (a : Args) (img : Image) : Except String (List (List Cell)) :=
  Except.ok (render a img)

/-- The default charset ramp of the `--charset` argument. -/
def defaultRamp : String := " .:-=+*#%@"

/-- A 1-by-1 image of pure white. -/
def whiteImg : Image :=
  { width := 1, height := 1, pix := fun _ _ => ⟨255, 255, 255⟩ }

/-- A 1-by-1 image of pure black. -/
def blackImg : Image :=
  { width := 1, height := 1, pix := fun _ _ => ⟨0, 0, 0⟩ }

/-- A 200-wide, 100-high image, all black; the pixel data is irrelevant
to the row-count claims. -/
def img200x100 : Image :=
  { width := 200, height := 100, pix := fun _ _ => ⟨0, 0, 0⟩ }

/-- A 2-wide, 2-high image, all black. -/
def img2x2 : Image :=
  { width := 2, height := 2, pix := fun _ _ => ⟨0, 0, 0⟩ }

lemma f32round_zero : f32round 0 = 0 := by
  rw [f32round, if_pos le_rfl]

lemma blog2_pos_eval (q : ℚ) (n k : Nat) (h1 : 1 ≤ q) (h2 : ⌊q⌋ = (n : ℤ))
    (hk : flog2 n = k) : blog2 q = (k : ℤ) := by
  rw [blog2, if_pos h1, h2]
  simp [hk]

lemma blog2_lt_one_eval (q : ℚ) (n k : Nat) (h1 : ¬ 1 ≤ q) (h2 : ⌊1 / q⌋ = (n : ℤ))
    (hk : flog2 n = k) (hne : 1 / q ≠ 2 ^ k) : blog2 q = -(k : ℤ) - 1 := by
  rw [blog2, if_neg h1, h2]
  simp only [Int.toNat_natCast, hk]
  rw [if_neg hne]

lemma blog2_lt_one_pow (q : ℚ) (n k : Nat) (h1 : ¬ 1 ≤ q) (h2 : ⌊1 / q⌋ = (n : ℤ))
    (hk : flog2 n = k) (heq : 1 / q = 2 ^ k) : blog2 q = -(k : ℤ) := by
  rw [blog2, if_neg h1, h2]
  simp only [Int.toNat_natCast, hk]
  rw [if_pos heq]

lemma f32round_eval (q : ℚ) (h0 : 0 < q) (e : ℤ) (he : blog2 q = e) (m : ℤ)
    (hm : rne (q / 2 ^ (e - 23)) = m) : f32round q = (m : ℚ) * 2 ^ (e - 23) := by
  rw [f32round, if_neg (not_le.mpr h0), he, hm]

lemma flog2_1 : flog2 1 = 0 := by decide

lemma flog2_2 : flog2 2 = 1 := by decide

lemma blog2_one : blog2 (1 : ℚ) = 0 := by
  rw [blog2, if_pos le_rfl]
  norm_num [flog2_1]

lemma f32round_one : f32round (1 : ℚ) = 1 := by
  rw [f32round, if_neg (by norm_num), blog2_one, rne]
  norm_num

lemma blog2_two : blog2 (2 : ℚ) = 1 := by
  rw [blog2, if_pos (by norm_num)]
  norm_num
  decide

lemma f32round_two : f32round (2 : ℚ) = 2 := by
  rw [f32round, if_neg (by norm_num), blog2_two, rne]
  norm_num

lemma f32round_3 : f32round (3 : ℚ) = 3 := by
  have he : blog2 (3 : ℚ) = 1 := by
    rw [blog2_pos_eval (3 : ℚ) 3 1 (by norm_num) (by norm_num) (by decide)]
    norm_num
  have hm : rne ((3 : ℚ) / 2 ^ ((1 : ℤ) - 23)) = 12582912 := by
    rw [rne]
    norm_num
  rw [f32round_eval (3 : ℚ) (by norm_num) 1 he 12582912 hm]
  norm_num

lemma f32round_7 : f32round (7 : ℚ) = 7 := by
  have he : blog2 (7 : ℚ) = 2 := by
    rw [blog2_pos_eval (7 : ℚ) 7 2 (by norm_num) (by norm_num) (by decide)]
    norm_num
  have hm : rne ((7 : ℚ) / 2 ^ ((2 : ℤ) - 23)) = 14680064 := by
    rw [rne]
    norm_num
  rw [f32round_eval (7 : ℚ) (by norm_num) 2 he 14680064 hm]
  norm_num

lemma f32round_25 : f32round (25 : ℚ) = 25 := by
  have he : blog2 (25 : ℚ) = 4 := by
    rw [blog2_pos_eval (25 : ℚ) 25 4 (by norm_num) (by norm_num) (by decide)]
    norm_num
  have hm : rne ((25 : ℚ) / 2 ^ ((4 : ℤ) - 23)) = 13107200 := by
    rw [rne]
    norm_num
  rw [f32round_eval (25 : ℚ) (by norm_num) 4 he 13107200 hm]
  norm_num

lemma f32round_27 : f32round (27 : ℚ) = 27 := by
  have he : blog2 (27 : ℚ) = 4 := by
    rw [blog2_pos_eval (27 : ℚ) 27 4 (by norm_num) (by norm_num) (by decide)]
    norm_num
  have hm : rne ((27 : ℚ) / 2 ^ ((4 : ℤ) - 23)) = 14155776 := by
    rw [rne]
    norm_num
  rw [f32round_eval (27 : ℚ) (by norm_num) 4 he 14155776 hm]
  norm_num

lemma f32round_50 : f32round (50 : ℚ) = 50 := by
  have he : blog2 (50 : ℚ) = 5 := by
    rw [blog2_pos_eval (50 : ℚ) 50 5 (by norm_num) (by norm_num) (by decide)]
    norm_num
  have hm : rne ((50 : ℚ) / 2 ^ ((5 : ℤ) - 23)) = 13107200 := by
    rw [rne]
    norm_num
  rw [f32round_eval (50 : ℚ) (by norm_num) 5 he 13107200 hm]
  norm_num

lemma f32round_100 : f32round (100 : ℚ) = 100 := by
  have he : blog2 (100 : ℚ) = 6 := by
    rw [blog2_pos_eval (100 : ℚ) 100 6 (by norm_num) (by norm_num) (by decide)]
    norm_num
  have hm : rne ((100 : ℚ) / 2 ^ ((6 : ℤ) - 23)) = 13107200 := by
    rw [rne]
    norm_num
  rw [f32round_eval (100 : ℚ) (by norm_num) 6 he 13107200 hm]
  norm_num

lemma f32round_200 : f32round (200 : ℚ) = 200 := by
  have he : blog2 (200 : ℚ) = 7 := by
    rw [blog2_pos_eval (200 : ℚ) 200 7 (by norm_num) (by norm_num) (by decide)]
    norm_num
  have hm : rne ((200 : ℚ) / 2 ^ ((7 : ℤ) - 23)) = 13107200 := by
    rw [rne]
    norm_num
  rw [f32round_eval (200 : ℚ) (by norm_num) 7 he 13107200 hm]
  norm_num

lemma f32round_half : f32round (1 / 2 : ℚ) = 1 / 2 := by
  have he : blog2 (1 / 2 : ℚ) = -1 := by
    rw [blog2_lt_one_pow (1 / 2 : ℚ) 2 1 (by norm_num) (by norm_num) (by decide) (by norm_num)]
    norm_num
  have hm : rne ((1 / 2 : ℚ) / 2 ^ ((-1 : ℤ) - 23)) = 8388608 := by
    rw [rne]
    norm_num
  rw [f32round_eval (1 / 2 : ℚ) (by norm_num) (-1) he 8388608 hm]
  norm_num

lemma f32round_3half : f32round (3 / 2 : ℚ) = 3 / 2 := by
  have he : blog2 (3 / 2 : ℚ) = 0 := by
    rw [blog2_pos_eval (3 / 2 : ℚ) 1 0 (by norm_num) (by norm_num) (by decide)]
    norm_num
  have hm : rne ((3 / 2 : ℚ) / 2 ^ ((0 : ℤ) - 23)) = 12582912 := by
    rw [rne]
    norm_num
  rw [f32round_eval (3 / 2 : ℚ) (by norm_num) 0 he 12582912 hm]
  norm_num

lemma f32round_aspect73 : f32round (7 / 3 : ℚ) = 9786709 / 4194304 := by
  have he : blog2 (7 / 3 : ℚ) = 1 := by
    rw [blog2_pos_eval (7 / 3 : ℚ) 2 1 (by norm_num) (by norm_num) (by decide)]
    norm_num
  have hm : rne ((7 / 3 : ℚ) / 2 ^ ((1 : ℤ) - 23)) = 9786709 := by
    rw [rne]
    norm_num
  rw [f32round_eval (7 / 3 : ℚ) (by norm_num) 1 he 9786709 hm]
  norm_num

lemma f32round_02126 : f32round (0.2126 : ℚ) = 891709 / 4194304 := by
  have he : blog2 (0.2126 : ℚ) = -3 := by
    rw [blog2_lt_one_eval (0.2126 : ℚ) 4 2 (by norm_num) (by norm_num) (by decide) (by norm_num)]
    norm_num
  have hm : rne ((0.2126 : ℚ) / 2 ^ ((-3 : ℤ) - 23)) = 14267344 := by
    rw [rne]
    norm_num
  rw [f32round_eval (0.2126 : ℚ) (by norm_num) (-3) he 14267344 hm]
  norm_num

lemma f32round_07152 : f32round (0.7152 : ℚ) = 11999065 / 16777216 := by
  have he : blog2 (0.7152 : ℚ) = -1 := by
    rw [blog2_lt_one_eval (0.7152 : ℚ) 1 0 (by norm_num) (by norm_num) (by decide) (by norm_num)]
    norm_num
  have hm : rne ((0.7152 : ℚ) / 2 ^ ((-1 : ℤ) - 23)) = 11999065 := by
    rw [rne]
    norm_num
  rw [f32round_eval (0.7152 : ℚ) (by norm_num) (-1) he 11999065 hm]
  norm_num

lemma f32round_00722 : f32round (0.0722 : ℚ) = 1211315 / 16777216 := by
  have he : blog2 (0.0722 : ℚ) = -4 := by
    rw [blog2_lt_one_eval (0.0722 : ℚ) 13 3 (by norm_num) (by norm_num) (by decide) (by norm_num)]
    norm_num
  have hm : rne ((0.0722 : ℚ) / 2 ^ ((-4 : ℤ) - 23)) = 9690520 := by
    rw [rne]
    norm_num
  rw [f32round_eval (0.0722 : ℚ) (by norm_num) (-4) he 9690520 hm]
  norm_num

lemma f32round_cg : f32round (11999065 / 16777216 : ℚ) = 11999065 / 16777216 := by
  have he : blog2 (11999065 / 16777216 : ℚ) = -1 := by
    rw [blog2_lt_one_eval (11999065 / 16777216 : ℚ) 1 0 (by norm_num) (by norm_num) (by decide) (by norm_num)]
    norm_num
  have hm : rne ((11999065 / 16777216 : ℚ) / 2 ^ ((-1 : ℤ) - 23)) = 11999065 := by
    rw [rne]
    norm_num
  rw [f32round_eval (11999065 / 16777216 : ℚ) (by norm_num) (-1) he 11999065 hm]
  norm_num

lemma f32round_wp1 : f32round (227385795 / 4194304 : ℚ) = 3552903 / 65536 := by
  have he : blog2 (227385795 / 4194304 : ℚ) = 5 := by
    rw [blog2_pos_eval (227385795 / 4194304 : ℚ) 54 5 (by norm_num) (by norm_num) (by decide)]
    norm_num
  have hm : rne ((227385795 / 4194304 : ℚ) / 2 ^ ((5 : ℤ) - 23)) = 14211612 := by
    rw [rne]
    norm_num
  rw [f32round_eval (227385795 / 4194304 : ℚ) (by norm_num) 5 he 14211612 hm]
  norm_num

lemma f32round_wp2 : f32round (3059761575 / 16777216 : ℚ) = 5976097 / 32768 := by
  have he : blog2 (3059761575 / 16777216 : ℚ) = 7 := by
    rw [blog2_pos_eval (3059761575 / 16777216 : ℚ) 182 7 (by norm_num) (by norm_num) (by decide)]
    norm_num
  have hm : rne ((3059761575 / 16777216 : ℚ) / 2 ^ ((7 : ℤ) - 23)) = 11952194 := by
    rw [rne]
    norm_num
  rw [f32round_eval (3059761575 / 16777216 : ℚ) (by norm_num) 7 he 11952194 hm]
  norm_num

lemma f32round_wp3 : f32round (308885325 / 16777216 : ℚ) = 4826333 / 262144 := by
  have he : blog2 (308885325 / 16777216 : ℚ) = 4 := by
    rw [blog2_pos_eval (308885325 / 16777216 : ℚ) 18 4 (by norm_num) (by norm_num) (by decide)]
    norm_num
  have hm : rne ((308885325 / 16777216 : ℚ) / 2 ^ ((4 : ℤ) - 23)) = 9652666 := by
    rw [rne]
    norm_num
  rw [f32round_eval (308885325 / 16777216 : ℚ) (by norm_num) 4 he 9652666 hm]
  norm_num

lemma f32round_ws1 : f32round (15505097 / 65536 : ℚ) = 15505097 / 65536 := by
  have he : blog2 (15505097 / 65536 : ℚ) = 7 := by
    rw [blog2_pos_eval (15505097 / 65536 : ℚ) 236 7 (by norm_num) (by norm_num) (by decide)]
    norm_num
  have hm : rne ((15505097 / 65536 : ℚ) / 2 ^ ((7 : ℤ) - 23)) = 15505097 := by
    rw [rne]
    norm_num
  rw [f32round_eval (15505097 / 65536 : ℚ) (by norm_num) 7 he 15505097 hm]
  norm_num

lemma f32round_ws2 : f32round (66846721 / 262144 : ℚ) = 255 := by
  have he : blog2 (66846721 / 262144 : ℚ) = 7 := by
    rw [blog2_pos_eval (66846721 / 262144 : ℚ) 255 7 (by norm_num) (by norm_num) (by decide)]
    norm_num
  have hm : rne ((66846721 / 262144 : ℚ) / 2 ^ ((7 : ℤ) - 23)) = 16711680 := by
    rw [rne]
    norm_num
  rw [f32round_eval (66846721 / 262144 : ℚ) (by norm_num) 7 he 16711680 hm]
  norm_num

lemma f32round_gp1 : f32round (11592217 / 4194304 : ℚ) = 11592217 / 4194304 := by
  have he : blog2 (11592217 / 4194304 : ℚ) = 1 := by
    rw [blog2_pos_eval (11592217 / 4194304 : ℚ) 2 1 (by norm_num) (by norm_num) (by decide)]
    norm_num
  have hm : rne ((11592217 / 4194304 : ℚ) / 2 ^ ((1 : ℤ) - 23)) = 11592217 := by
    rw [rne]
    norm_num
  rw [f32round_eval (11592217 / 4194304 : ℚ) (by norm_num) 1 he 11592217 hm]
  norm_num

lemma f32round_gp2 : f32round (155987845 / 16777216 : ℚ) = 1218655 / 131072 := by
  have he : blog2 (155987845 / 16777216 : ℚ) = 3 := by
    rw [blog2_pos_eval (155987845 / 16777216 : ℚ) 9 3 (by norm_num) (by norm_num) (by decide)]
    norm_num
  have hm : rne ((155987845 / 16777216 : ℚ) / 2 ^ ((3 : ℤ) - 23)) = 9749240 := by
    rw [rne]
    norm_num
  rw [f32round_eval (155987845 / 16777216 : ℚ) (by norm_num) 3 he 9749240 hm]
  norm_num

lemma f32round_gp3 : f32round (15747095 / 16777216 : ℚ) = 15747095 / 16777216 := by
  have he : blog2 (15747095 / 16777216 : ℚ) = -1 := by
    rw [blog2_lt_one_eval (15747095 / 16777216 : ℚ) 1 0 (by norm_num) (by norm_num) (by decide) (by norm_num)]
    norm_num
  have hm : rne ((15747095 / 16777216 : ℚ) / 2 ^ ((-1 : ℤ) - 23)) = 15747095 := by
    rw [rne]
    norm_num
  rw [f32round_eval (15747095 / 16777216 : ℚ) (by norm_num) (-1) he 15747095 hm]
  norm_num

lemma f32round_gs1 : f32round (50589177 / 4194304 : ℚ) = 6323647 / 524288 := by
  have he : blog2 (50589177 / 4194304 : ℚ) = 3 := by
    rw [blog2_pos_eval (50589177 / 4194304 : ℚ) 12 3 (by norm_num) (by norm_num) (by decide)]
    norm_num
  have hm : rne ((50589177 / 4194304 : ℚ) / 2 ^ ((3 : ℤ) - 23)) = 12647294 := by
    rw [rne]
    norm_num
  rw [f32round_eval (50589177 / 4194304 : ℚ) (by norm_num) 3 he 12647294 hm]
  norm_num

lemma f32round_gs2 : f32round (218103799 / 16777216 : ℚ) = 13631487 / 1048576 := by
  have he : blog2 (218103799 / 16777216 : ℚ) = 3 := by
    rw [blog2_pos_eval (218103799 / 16777216 : ℚ) 12 3 (by norm_num) (by norm_num) (by decide)]
    norm_num
  have hm : rne ((218103799 / 16777216 : ℚ) / 2 ^ ((3 : ℤ) - 23)) = 13631487 := by
    rw [rne]
    norm_num
  rw [f32round_eval (218103799 / 16777216 : ℚ) (by norm_num) 3 he 13631487 hm]
  norm_num

lemma f32round_t1_27 : f32round (264241143 / 4194304 : ℚ) = 16515071 / 262144 := by
  have he : blog2 (264241143 / 4194304 : ℚ) = 5 := by
    rw [blog2_pos_eval (264241143 / 4194304 : ℚ) 62 5 (by norm_num) (by norm_num) (by decide)]
    norm_num
  have hm : rne ((264241143 / 4194304 : ℚ) / 2 ^ ((5 : ℤ) - 23)) = 16515071 := by
    rw [rne]
    norm_num
  rw [f32round_eval (264241143 / 4194304 : ℚ) (by norm_num) 5 he 16515071 hm]
  norm_num

lemma f32round_t2_27 : f32round (16515071 / 524288 : ℚ) = 16515071 / 524288 := by
  have he : blog2 (16515071 / 524288 : ℚ) = 4 := by
    rw [blog2_pos_eval (16515071 / 524288 : ℚ) 31 4 (by norm_num) (by norm_num) (by decide)]
    norm_num
  have hm : rne ((16515071 / 524288 : ℚ) / 2 ^ ((4 : ℤ) - 23)) = 16515071 := by
    rw [rne]
    norm_num
  rw [f32round_eval (16515071 / 524288 : ℚ) (by norm_num) 4 he 16515071 hm]
  norm_num

lemma render_length (a : Args) (img : Image) :
    (render a img).length =
      new_height a.width img.width img.height a.aspect_ratio_compensation := by
  simp [render]

lemma new_height_pos_w (tw w h : Nat) (af : ℚ) (hw : w ≠ 0) :
    new_height tw w h af =
      min U32MAX (round (f32round (f32round (f32round (tw : ℚ) *
        f32round (f32round (h : ℚ) / f32round (w : ℚ))) * af))).toNat := by
  simp [new_height, roundU32, hw]

lemma new_height_100_200_100 : new_height 100 200 100 (1/2) = 25 := by
  rw [new_height_pos_w 100 200 100 (1/2) (by norm_num)]
  push_cast
  rw [f32round_100, f32round_200,
    show (100 : ℚ) / 200 = 1 / 2 from by norm_num, f32round_half,
    show (100 : ℚ) * (1 / 2) = 50 from by norm_num, f32round_50,
    show (50 : ℚ) * (1 / 2) = 25 from by norm_num, f32round_25]
  norm_num [round_eq, U32MAX]
  decide

lemma new_height_3_1_1 : new_height 3 1 1 (1/2) = 2 := by
  rw [new_height_pos_w 3 1 1 (1/2) (by norm_num)]
  push_cast
  rw [f32round_3, f32round_one,
    show (1 : ℚ) / 1 = 1 from by norm_num, f32round_one,
    show (3 : ℚ) * 1 = 3 from by norm_num, f32round_3,
    show (3 : ℚ) * (1 / 2) = 3 / 2 from by norm_num, f32round_3half]
  norm_num [round_eq, U32MAX]
  decide

lemma new_height_1111 : new_height 1 1 1 1 = 1 := by
  rw [new_height_pos_w 1 1 1 1 (by norm_num)]
  push_cast
  simp only [f32round_one, div_one, mul_one]
  norm_num [round_eq, U32MAX]

lemma new_height_27_3_7 : new_height 27 3 7 (1/2) = 31 := by
  rw [new_height_pos_w 27 3 7 (1/2) (by norm_num)]
  push_cast
  rw [f32round_27, f32round_3, f32round_7, f32round_aspect73,
    show (27 : ℚ) * (9786709 / 4194304) = 264241143 / 4194304 from by norm_num,
    f32round_t1_27,
    show (16515071 / 262144 : ℚ) * (1 / 2) = 16515071 / 524288 from by norm_num,
    f32round_t2_27]
  norm_num [round_eq, U32MAX]
  decide

lemma new_height_tw_zero (w h : Nat) (af : ℚ) (hw : w ≠ 0) : new_height 0 w h af = 0 := by
  rw [new_height_pos_w 0 w h af hw]
  push_cast
  simp only [f32round_zero, zero_mul]
  norm_num [round_eq, U32MAX]

lemma new_height_h_zero (tw w : Nat) (af : ℚ) (hw : w ≠ 0) : new_height tw w 0 af = 0 := by
  rw [new_height_pos_w tw w 0 af hw]
  push_cast
  simp only [f32round_zero, zero_div, mul_zero, zero_mul]
  norm_num [round_eq, U32MAX]

lemma brightness_black : brightness ⟨0, 0, 0⟩ = 0 := by
  simp only [brightness]
  push_cast
  simp only [mul_zero, f32round_zero, add_zero, zero_add]
  norm_num

lemma brightness_white : brightness ⟨255, 255, 255⟩ = 255 := by
  simp only [brightness]
  push_cast
  rw [f32round_02126, f32round_07152, f32round_00722,
    show (891709 / 4194304 : ℚ) * 255 = 227385795 / 4194304 from by norm_num,
    f32round_wp1,
    show (11999065 / 16777216 : ℚ) * 255 = 3059761575 / 16777216 from by norm_num,
    f32round_wp2,
    show (1211315 / 16777216 : ℚ) * 255 = 308885325 / 16777216 from by norm_num,
    f32round_wp3,
    show (3552903 / 65536 : ℚ) + 5976097 / 32768 = 15505097 / 65536 from by norm_num,
    f32round_ws1,
    show (15505097 / 65536 : ℚ) + 4826333 / 262144 = 66846721 / 262144 from by norm_num,
    f32round_ws2]
  norm_num

lemma brightness_010 : brightness ⟨0, 1, 0⟩ = 0 := by
  simp only [brightness]
  push_cast
  simp only [mul_zero, mul_one, f32round_zero, f32round_02126, f32round_07152,
    f32round_00722, f32round_cg, zero_add, add_zero]
  norm_num

lemma brightness_gray13 : brightness ⟨13, 13, 13⟩ = 12 := by
  simp only [brightness]
  push_cast
  rw [f32round_02126, f32round_07152, f32round_00722,
    show (891709 / 4194304 : ℚ) * 13 = 11592217 / 4194304 from by norm_num,
    f32round_gp1,
    show (11999065 / 16777216 : ℚ) * 13 = 155987845 / 16777216 from by norm_num,
    f32round_gp2,
    show (1211315 / 16777216 : ℚ) * 13 = 15747095 / 16777216 from by norm_num,
    f32round_gp3,
    show (11592217 / 4194304 : ℚ) + 1218655 / 131072 = 50589177 / 4194304 from by norm_num,
    f32round_gs1,
    show (6323647 / 524288 : ℚ) + 15747095 / 16777216 = 218103799 / 16777216 from by norm_num,
    f32round_gs2]
  norm_num
  decide

lemma char_index_default_255 : char_index defaultRamp 255 = 9 := by
  simp only [char_index, show defaultRamp.utf8ByteSize = 10 from rfl]
  norm_num [round_eq]
  decide

lemma ascii_char_default_255 : ascii_char defaultRamp 255 = '@' := by
  simp only [ascii_char, char_index_default_255]
  decide

lemma char_index_empty (L : Nat) : char_index "" L = 0 := by
  simp only [char_index, show ("" : String).utf8ByteSize = 0 from rfl]
  norm_num

lemma ascii_char_empty (L : Nat) : ascii_char "" L = ' ' := by
  simp only [ascii_char, char_index_empty]
  decide

/-- Render configuration of the C1 example: target width 100, default
ramp, colour on, aspect factor 0.5. -/
def C1cfg : Args := ⟨100, defaultRamp, true, 1/2⟩

/-- C1 counterexample, refuting both parts of the claim.  The example:
for target_width = 100, a 200-by-100 image and aspect factor 0.5 the
renderer produces 25 rows, not the 50 rows the claim asserts — every
step of the f32 chain is exact there and round(100 * 0.5 * 0.5) = 25.
The universal formula: at target width 27 on a 3-by-7 image with aspect
factor 0.5, the f32 chain rounds 7/3 down to 2.3333333 and the product
27 * aspect down to 62.999996, giving round(31.499998) = 31 rows, while
the claimed formula round(27 * (7/3) * 0.5) = round(31.5) gives 32. -/
theorem C1_counterexample :
    (render C1cfg img200x100).length = 25 ∧ (render C1cfg img200x100).length ≠ 50 ∧
    new_height 27 3 7 (1/2) = 31 ∧
    (round ((27 : ℚ) * ((7 : ℚ) / 3) * (1/2))).toNat = 32 := by
  have h : (render C1cfg img200x100).length = 25 := by
    rw [render_length]
    exact new_height_100_200_100
  refine ⟨h, by rw [h]; decide, new_height_27_3_7, ?_⟩
  norm_num [round_eq]
  decide

/-- C1 amended: for every image with positive width and height, positive
target width and positive aspect factor, WHEN each f32 step of the
height computation is exact — the three integer-to-f32 conversions, the
aspect division and the two products introduce no rounding — and the
rounded value fits in u32, the number of output rows equals
round(target_width * (image.height / image.width) * aspect_factor); the
claim example is such a case and produces 25 rows, not 50.  When a
step does round, the count can differ from the real-arithmetic formula,
as the 27-wide 3-by-7 instance of the counterexample shows (31 rows
against 32). -/
theorem C1_row_count (a : Args) (img : Image)
    (hw : 0 < img.width) (_hh : 0 < img.height) (_htw : 0 < a.width)
    (_haf : 0 < a.aspect_ratio_compensation)
    (e1 : f32round (img.width : ℚ) = (img.width : ℚ))
    (e2 : f32round (img.height : ℚ) = (img.height : ℚ))
    (e3 : f32round (a.width : ℚ) = (a.width : ℚ))
    (e4 : f32round ((img.height : ℚ) / (img.width : ℚ)) =
      (img.height : ℚ) / (img.width : ℚ))
    (e5 : f32round ((a.width : ℚ) * ((img.height : ℚ) / (img.width : ℚ))) =
      (a.width : ℚ) * ((img.height : ℚ) / (img.width : ℚ)))
    (e6 : f32round ((a.width : ℚ) * ((img.height : ℚ) / (img.width : ℚ)) *
        a.aspect_ratio_compensation) =
      (a.width : ℚ) * ((img.height : ℚ) / (img.width : ℚ)) *
        a.aspect_ratio_compensation)
    (hfit : (round ((a.width : ℚ) * ((img.height : ℚ) / (img.width : ℚ)) *
      a.aspect_ratio_compensation)).toNat ≤ U32MAX) :
    (render a img).length =
      (round ((a.width : ℚ) * ((img.height : ℚ) / (img.width : ℚ)) *
        a.aspect_ratio_compensation)).toNat := by
  rw [render_length, new_height_pos_w _ _ _ _ (Nat.pos_iff_ne_zero.mp hw),
    e1, e2, e3, e4, e5, e6]
  exact min_eq_right hfit

/-- C1 witness: the amended row-count statement applied to the concrete
example, whose f32 chain is exact, evaluates to 25 rows. -/
theorem C1_row_count_witness : (render C1cfg img200x100).length = 25 := by
  have h := C1_row_count C1cfg img200x100 (by norm_num [img200x100])
    (by norm_num [img200x100]) (by norm_num [C1cfg]) (by norm_num [C1cfg])
    (by norm_num [img200x100, f32round_200])
    (by norm_num [img200x100, f32round_100])
    (by norm_num [C1cfg, f32round_100])
    (by norm_num [C1cfg, img200x100, f32round_half])
    (by norm_num [C1cfg, img200x100, f32round_50])
    (by norm_num [C1cfg, img200x100, f32round_25])
    (by norm_num [C1cfg, img200x100, round_eq, U32MAX])
  rw [h]
  norm_num [C1cfg, img200x100, round_eq]
  decide

/-- Modelled from the words of the specification, for comparison with
the source in claim C2: luminance as the exact BT.709 weighted sum
ROUNDED to the nearest integer and clamped to 0..=255.  The source
truncates an f32 evaluation instead; compare `brightness`. -/
def luminance_spec (p : Pixel) : Nat :=
  min 255 (round ((0.2126 : ℚ) * p.r + (0.7152 : ℚ) * p.g + (0.0722 : ℚ) * p.b)).toNat

/-- C2 counterexample: the claimed luminance differs from the source on
ordinary pixels in both respects.  Truncation: for (0, 1, 0) the f32
sum is 0.71520000696, which the cast truncates to 0 while the claimed
rounding gives 1.  f32 evaluation: for gray (13, 13, 13) the exact sum
is exactly 13 (the claimed value), but the f32 products and sums land
at 12.999999046, which truncates to 12. -/
theorem C2_counterexample :
    brightness ⟨0, 1, 0⟩ = 0 ∧ luminance_spec ⟨0, 1, 0⟩ = 1 ∧
    brightness ⟨0, 1, 0⟩ ≠ luminance_spec ⟨0, 1, 0⟩ ∧
    brightness ⟨13, 13, 13⟩ = 12 ∧ luminance_spec ⟨13, 13, 13⟩ = 13 := by
  have h2 : luminance_spec ⟨0, 1, 0⟩ = 1 := by
    simp only [luminance_spec]
    norm_num [round_eq]
  have h5 : luminance_spec ⟨13, 13, 13⟩ = 13 := by
    simp only [luminance_spec]
    norm_num [round_eq]
    decide
  exact ⟨brightness_010, h2, by rw [brightness_010, h2]; decide, brightness_gray13, h5⟩

/-- C2 amended: for every pixel, the luminance used for glyph selection
is the f32 evaluation of the BT.709 weighted sum — nearest-f32
constants, each product and each sum rounded — TRUNCATED toward zero
(not rounded) and clamped to 0..=255.  Both deviations from the claim
are observable at single-channel distance from black and at plain gray:
(0, 1, 0) truncates the f32 sum 0.71520000696 to 0 where rounding would
give 1, and (13, 13, 13) yields 12 although the exact weighted sum is
exactly 13. -/
theorem C2_truncated_luminance :
    (∀ p : Pixel,
      brightness p = min 255 (⌊f32round (f32round (f32round (f32round (0.2126 : ℚ) * p.r) +
        f32round (f32round (0.7152 : ℚ) * p.g)) +
        f32round (f32round (0.0722 : ℚ) * p.b))⌋).toNat) ∧
    brightness ⟨0, 1, 0⟩ = 0 ∧ round ((0.7152 : ℚ)) = 1 ∧
    brightness ⟨13, 13, 13⟩ = 12 ∧
    ⌊(0.2126 : ℚ) * 13 + (0.7152 : ℚ) * 13 + (0.0722 : ℚ) * 13⌋ = 13 := by
  refine ⟨fun p => rfl, brightness_010, ?_, brightness_gray13, ?_⟩
  · norm_num [round_eq]
  · norm_num

/-- C3 confirmed: the glyph for luminance L is the character of the
ramp at index round(L / 255 * (len(ramp) - 1)) where len is the UTF-8
byte length the source uses, and a space is emitted whenever that index
is out of the bounds of the character sequence. -/
theorem C3_glyph_selection (ramp : String) (L : Nat) :
    char_index ramp L =
      (round ((L : ℚ) / 255 * ((ramp.utf8ByteSize - 1 : Nat) : ℚ))).toNat ∧
    ascii_char ramp L =
      if h : char_index ramp L < ramp.data.length
      then ramp.data.get ⟨char_index ramp L, h⟩ else ' ' := by
  refine ⟨rfl, ?_⟩
  rw [ascii_char]
  split
  · rename_i h
    rw [List.get?_eq_get h, Option.getD_some]
  · rename_i h
    rw [List.get?_eq_none.mpr (Nat.le_of_not_lt h), Option.getD_none]

/-- Render configuration with width 0 used for claim C4. -/
def C4cfg : Args := ⟨0, defaultRamp, true, 1/2⟩

/-- C4 counterexample: with configured width 0 and a 2-by-2 image the
program reports no fatal configuration error at all: the row count
computes to 0 (the zero arithmetic is f32-exact), the renderer emits
zero rows, and main completes successfully with exit code 0. -/
theorem C4_counterexample :
    run_main C4cfg img2x2 = Except.ok [] ∧ (run_main C4cfg img2x2).isOk = true := by
  have hl : (render C4cfg img2x2).length = 0 := by
    rw [render_length]
    have h0 : new_height 0 2 2 (1/2) = 0 := new_height_tw_zero 2 2 (1/2) (by norm_num)
    simpa [C4cfg, img2x2] using h0
  have h : render C4cfg img2x2 = [] := List.length_eq_zero.mp hl
  exact ⟨by rw [run_main, h], by rw [run_main, h]; rfl⟩

/-- C4 amended: when the configured width is 0, or the image height is
0 (including the fully degenerate 0-by-0 image), the program reports no
error: the computed row count is 0, so the renderer produces zero rows
without sampling any pixel and main exits successfully.  (A zero-width
image with positive height and positive configured width would instead
saturate the row count to u32::MAX and drive the pixel lookup out of
bounds; no configuration check exists in the source.) -/
theorem C4_degenerate_ok (a : Args) (img : Image)
    (h : a.width = 0 ∨ img.height = 0) :
    run_main a img = Except.ok [] := by
  have hnh : new_height a.width img.width img.height a.aspect_ratio_compensation = 0 := by
    rcases h with h | h
    · by_cases hw : img.width = 0
      · simp [new_height, hw, h]
      · rw [h]
        exact new_height_tw_zero _ _ _ hw
    · by_cases hw : img.width = 0
      · simp [new_height, hw, h]
      · rw [h]
        exact new_height_h_zero _ _ _ hw
  rw [run_main]
  congr 1
  rw [render, hnh]
  simp

/-- C4 witness: the amended degenerate-configuration statement applied
to width 0 and a 2-by-2 image. -/
theorem C4_degenerate_ok_witness : run_main C4cfg img2x2 = Except.ok [] :=
  C4_degenerate_ok C4cfg img2x2 (Or.inl rfl)

/-- Render configuration with an empty charset used for claim C5. -/
def C5cfg : Args := ⟨3, "", true, 1/2⟩

/-- C5 counterexample: with an empty charset the program neither
reports an error nor exits non-zero: under the wrapping (release)
semantics of the usize subtraction every glyph index is out of bounds,
so the space fallback fires for every cell, and main renders a full
2-by-3 grid of spaces over a black 1-by-1 image and completes
successfully.  (A debug build would abort on the subtraction overflow
instead; in neither build does an InvalidConfiguration error exist.) -/
theorem C5_counterexample :
    run_main C5cfg blackImg =
      Except.ok
        [[⟨' ', some ⟨0, 0, 0⟩⟩, ⟨' ', some ⟨0, 0, 0⟩⟩, ⟨' ', some ⟨0, 0, 0⟩⟩],
         [⟨' ', some ⟨0, 0, 0⟩⟩, ⟨' ', some ⟨0, 0, 0⟩⟩, ⟨' ', some ⟨0, 0, 0⟩⟩]] ∧
    (run_main C5cfg blackImg).isOk = true := by
  have hnh : new_height 3 1 1 (1/2) = 2 := new_height_3_1_1
  have hcell : ∀ nh x y, renderCell C5cfg blackImg nh x y = ⟨' ', some ⟨0, 0, 0⟩⟩ := by
    intro nh x y
    simp [renderCell, C5cfg, blackImg, ascii_char_empty]
  have hgrid : render C5cfg blackImg =
      [[⟨' ', some ⟨0, 0, 0⟩⟩, ⟨' ', some ⟨0, 0, 0⟩⟩, ⟨' ', some ⟨0, 0, 0⟩⟩],
       [⟨' ', some ⟨0, 0, 0⟩⟩, ⟨' ', some ⟨0, 0, 0⟩⟩, ⟨' ', some ⟨0, 0, 0⟩⟩]] := by
    rw [render]
    simp only [C5cfg, blackImg, hcell]
    rw [hnh]
    decide
  exact ⟨by rw [run_main, hgrid], by rw [run_main, hgrid]; rfl⟩

/-- C5 amended: the empty charset passes through without any
validation: main still succeeds (no error value exists on the rendering
path), and every cell of the produced grid carries the space fallback
glyph. -/
theorem C5_empty_charset_spaces (a : Args) (img : Image) (h : a.charset = "") :
    (run_main a img).isOk = true ∧ ∀ row ∈ render a img, ∀ c ∈ row, c.ch = ' ' := by
  refine ⟨rfl, ?_⟩
  intro row hrow c hc
  rw [render] at hrow
  obtain ⟨y, hy, rfl⟩ := List.mem_map.mp hrow
  obtain ⟨x, hx, rfl⟩ := List.mem_map.mp hc
  simp [renderCell, h, ascii_char_empty]

/-- C5 witness: the amended no-validation statement applied to the
empty-charset configuration over the black 1-by-1 image. -/
theorem C5_empty_charset_spaces_witness : (run_main C5cfg blackImg).isOk = true :=
  (C5_empty_charset_spaces C5cfg blackImg rfl).1

lemma utf8ByteSize_singleton (c : Char) : (String.mk [c]).utf8ByteSize = c.utf8Size := by
  simp [String.utf8ByteSize, String.utf8ByteSize.go]

lemma char_index_single_byte (c : Char) (hc : c.utf8Size = 1) (L : Nat) :
    char_index (String.mk [c]) L = 0 := by
  simp [char_index, utf8ByteSize_singleton, hc]

/-- C6 counterexample: a ramp of exactly one character that is not a
single UTF-8 byte refutes the claim: for the two-byte character of
"é" the byte length is 2, so a white pixel computes index
round(255/255 * 1) = 1, which is out of the single-character bounds,
and the space fallback is emitted instead of the ramp character.  The
rendered 1-by-1 grid over a white image is a space, not the ramp
glyph. -/
theorem C6_counterexample :
    "é".length = 1 ∧
    render ⟨1, "é", false, 1⟩ whiteImg = [[⟨' ', none⟩]] ∧
    (' ' : Char) ≠ 'é' := by
  have hci : char_index "é" 255 = 1 := by
    simp only [char_index, show ("é" : String).utf8ByteSize = 2 from rfl]
    norm_num [round_eq]
  have hglyph : ascii_char "é" 255 = ' ' := by
    rw [ascii_char, hci]
    decide
  have hcell : ∀ nh x y, renderCell ⟨1, "é", false, 1⟩ whiteImg nh x y = ⟨' ', none⟩ := by
    intro nh x y
    simp [renderCell, whiteImg, brightness_white, hglyph]
  refine ⟨by decide, ?_, by decide⟩
  rw [render]
  simp only [hcell]
  rw [show whiteImg.width = 1 from rfl, show whiteImg.height = 1 from rfl, new_height_1111]
  decide

/-- C6 amended: for every ramp consisting of exactly one SINGLE-BYTE
character, every cell of the output grid is that character regardless
of the pixel values: the byte length is 1, so the computed index is
always 0.  (A single multi-byte character does not satisfy this, as the
counterexample shows.) -/
theorem C6_single_byte_uniform (c : Char) (a : Args) (img : Image)
    (hc : c.utf8Size = 1) (hs : a.charset = String.mk [c]) :
    ∀ row ∈ render a img, ∀ cell ∈ row, cell.ch = c := by
  intro row hrow cell hcell
  rw [render] at hrow
  obtain ⟨y, hy, rfl⟩ := List.mem_map.mp hrow
  obtain ⟨x, hx, rfl⟩ := List.mem_map.mp hcell
  simp [renderCell, hs, ascii_char, char_index_single_byte c hc]

lemma render_x_black : render ⟨1, "x", false, 1⟩ blackImg = [[⟨'x', none⟩]] := by
  have hglyph : ascii_char "x" 0 = 'x' := by
    rw [ascii_char, show ("x" : String) = String.mk ['x'] from rfl,
      char_index_single_byte 'x' (by decide) 0]
    decide
  have hcell : ∀ nh x y, renderCell ⟨1, "x", false, 1⟩ blackImg nh x y = ⟨'x', none⟩ := by
    intro nh x y
    simp [renderCell, blackImg, brightness_black, hglyph]
  rw [render]
  simp only [hcell]
  rw [show blackImg.width = 1 from rfl, show blackImg.height = 1 from rfl, new_height_1111]
  decide

/-- C6 witness: the amended single-byte statement applied to the ramp
"x" over the black 1-by-1 image. -/
theorem C6_single_byte_uniform_witness : (Cell.mk 'x' none).ch = 'x' :=
  C6_single_byte_uniform 'x' ⟨1, "x", false, 1⟩ blackImg (by decide) rfl
    [⟨'x', none⟩] (by rw [render_x_black]; exact List.mem_singleton_self _)
    ⟨'x', none⟩ (List.mem_singleton_self _)

/-- C7 confirmed: the luminance-to-glyph-index mapping is monotone:
within one rendering (one ramp), a lower luminance never selects a
later ramp index, so the index sequence across a horizontal luminance
gradient is non-decreasing. -/
theorem C7_monotone_index (ramp : String) (L1 L2 : Nat) (h : L1 ≤ L2) :
    char_index ramp L1 ≤ char_index ramp L2 := by
  have h' : (L1 : ℚ) ≤ (L2 : ℚ) := by exact_mod_cast h
  have hB : (0 : ℚ) ≤ ((ramp.utf8ByteSize - 1 : Nat) : ℚ) := Nat.cast_nonneg _
  have hdiv : (L1 : ℚ) / 255 ≤ (L2 : ℚ) / 255 := by linarith
  have hmul := mul_le_mul_of_nonneg_right hdiv hB
  have hr : round ((L1 : ℚ) / 255 * ((ramp.utf8ByteSize - 1 : Nat) : ℚ)) ≤
      round ((L2 : ℚ) / 255 * ((ramp.utf8ByteSize - 1 : Nat) : ℚ)) := by
    rw [round_eq, round_eq]
    exact Int.floor_le_floor (by linarith)
  exact Int.toNat_le_toNat hr

/-- C7 witness: the monotone-index statement applied to luminances 3
and 200 over the default ramp. -/
theorem C7_monotone_index_witness :
    char_index defaultRamp 3 ≤ char_index defaultRamp 200 :=
  C7_monotone_index defaultRamp 3 200 (by norm_num)

/-- C8 confirmed: rendering the 1-by-1 pure-white image with the
default ramp makes every glyph of the output grid the last ramp
character, the at-sign: the f32 weighted sum of (255,255,255) is
exactly 255.0, and round(255/255 * 9) = 9 indexes the final character,
whatever the target width, colour flag and aspect factor produce as
grid shape. -/
theorem C8_white_is_at (tw : Nat) (col : Bool) (af : ℚ) :
    ∀ row ∈ render ⟨tw, defaultRamp, col, af⟩ whiteImg, ∀ cell ∈ row, cell.ch = '@' := by
  intro row hrow cell hcell
  rw [render] at hrow
  obtain ⟨y, hy, rfl⟩ := List.mem_map.mp hrow
  obtain ⟨x, hx, rfl⟩ := List.mem_map.mp hcell
  simp [renderCell, whiteImg, brightness_white, ascii_char_default_255]

lemma render_default_white :
    render ⟨1, defaultRamp, true, 1⟩ whiteImg = [[⟨'@', some ⟨255, 255, 255⟩⟩]] := by
  have hcell : ∀ nh x y,
      renderCell ⟨1, defaultRamp, true, 1⟩ whiteImg nh x y = ⟨'@', some ⟨255, 255, 255⟩⟩ := by
    intro nh x y
    simp [renderCell, whiteImg, brightness_white, ascii_char_default_255]
  rw [render]
  simp only [hcell]
  rw [show whiteImg.width = 1 from rfl, show whiteImg.height = 1 from rfl, new_height_1111]
  decide

/-- C8 witness: the white-image statement applied to the concrete
1-by-1 grid rendered at width 1 and aspect factor 1. -/
theorem C8_white_is_at_witness : (Cell.mk '@' (some ⟨255, 255, 255⟩)).ch = '@' :=
  C8_white_is_at 1 true 1 [⟨'@', some ⟨255, 255, 255⟩⟩]
    (by rw [render_default_white]; exact List.mem_singleton_self _)
    ⟨'@', some ⟨255, 255, 255⟩⟩ (List.mem_singleton_self _)

/-- Bit-accurate model of lines 143-144 of main.rs:
`(v as f32 / n as f32 * size as f32) as u32`, with every integer-to-f32
conversion and every f32 operation rounded to nearest-even 24-bit
precision; compare the exact-arithmetic `original_coord`. -/
def original_coord_f32 (v n size : Nat) : Nat :=
  min U32MAX (⌊f32round (f32round (f32round (v : ℚ) / f32round (n : ℚ)) * f32round (size : ℚ))⌋).toNat

lemma blog2_natCast (n : Nat) (h : 1 ≤ n) : blog2 (n : ℚ) = flog2 n := by
  rw [blog2, if_pos (by exact_mod_cast h)]
  norm_num

lemma flog2_33554433 : flog2 33554433 = 25 := by decide

lemma flog2_33554432 : flog2 33554432 = 25 := by decide

lemma f32round_33554433 : f32round ((33554433 : Nat) : ℚ) = 33554432 := by
  rw [f32round, if_neg (by norm_num), blog2_natCast _ (by norm_num), flog2_33554433, rne]
  norm_num

lemma f32round_33554432 : f32round ((33554432 : Nat) : ℚ) = 33554432 := by
  rw [f32round, if_neg (by norm_num), blog2_natCast _ (by norm_num), flog2_33554432, rne]
  norm_num

lemma f32round_2cast : f32round ((2 : Nat) : ℚ) = 2 := by
  rw [show ((2 : Nat) : ℚ) = (2 : ℚ) from by norm_num, f32round_two]

/-- C9: the implicit always-in-bounds claim fails on the source because
the coordinates are computed in f32: at target width 33554433 (2^25
plus 1, accepted by the u32 `--width` flag) the conversion of the width
to f32 rounds DOWN to 2^25, so the last column x = 2^25 computes
x / width = 1.0 exactly and the source x-coordinate becomes
image.width itself — here 2 on a 2-pixel-wide image — which is out of
bounds and makes `get_pixel` abort.  Exact arithmetic (the
`original_coord` model) would give the in-bounds coordinate 1. -/
theorem C9_f32_out_of_bounds :
    original_coord_f32 33554432 33554433 2 = 2 ∧
    original_coord 33554432 33554433 2 = 1 := by
  constructor
  · rw [original_coord_f32, f32round_33554432, f32round_33554433, f32round_2cast,
      show (33554432 : ℚ) / 33554432 = 1 from by norm_num, f32round_one,
      show (1 : ℚ) * 2 = 2 from one_mul 2, f32round_two]
    norm_num [U32MAX]
    decide
  · rw [original_coord]
    norm_num [U32MAX]

lemma char_index_255 (s : String) : char_index s 255 = s.utf8ByteSize - 1 := by
  rw [char_index, show ((255 : Nat) : ℚ) = (255 : ℚ) from by norm_num,
    show (255 : ℚ) / 255 = 1 from by norm_num, one_mul, round_natCast]
  simp

lemma char_index_le (s : String) (L : Nat) (hL : L ≤ 255) :
    char_index s L ≤ s.utf8ByteSize - 1 := by
  have hL' : (L : ℚ) ≤ 255 := by exact_mod_cast hL
  have hdiv : (L : ℚ) / 255 ≤ 1 := by
    rw [div_le_one (by norm_num)]
    exact hL'
  have hq : (L : ℚ) / 255 * ((s.utf8ByteSize - 1 : Nat) : ℚ) ≤
      ((s.utf8ByteSize - 1 : Nat) : ℚ) :=
    mul_le_of_le_one_left (Nat.cast_nonneg _) hdiv
  have hr : round ((L : ℚ) / 255 * ((s.utf8ByteSize - 1 : Nat) : ℚ)) ≤
      (s.utf8ByteSize - 1 : Nat) := by
    calc round ((L : ℚ) / 255 * ((s.utf8ByteSize - 1 : Nat) : ℚ))
        ≤ round (((s.utf8ByteSize - 1 : Nat) : ℚ)) := by
          rw [round_eq, round_eq]
          exact Int.floor_le_floor (by linarith)
      _ = (s.utf8ByteSize - 1 : Nat) := round_natCast _
  calc char_index s L = (round ((L : ℚ) / 255 * ((s.utf8ByteSize - 1 : Nat) : ℚ))).toNat := rfl
    _ ≤ ((s.utf8ByteSize - 1 : Nat) : ℤ).toNat := Int.toNat_le_toNat hr
    _ = s.utf8ByteSize - 1 := by simp

/-- C10 confirmed, both halves: for a nonempty charset whose UTF-8 byte
length equals its character count (all characters single-byte), the
glyph index stays at most len - 1 for every luminance up to 255 and the
lookup always succeeds, so the space fallback branch is dead; for a
charset whose byte length exceeds its character count (it contains a
multi-byte character), the index computed from the byte length reaches
byte_len - 1 at luminance 255, which is at least the character count,
and the space fallback is emitted. -/
theorem C10_byte_vs_char_indexing :
    (∀ (s : String) (L : Nat), L ≤ 255 → s.utf8ByteSize = s.length → 0 < s.length →
      char_index s L ≤ s.length - 1 ∧ (s.data.get? (char_index s L)).isSome = true) ∧
    (∀ s : String, s.length < s.utf8ByteSize →
      s.length ≤ char_index s 255 ∧ ascii_char s 255 = ' ') := by
  constructor
  · intro s L hL hbyte hpos
    have hle : char_index s L ≤ s.length - 1 := hbyte ▸ char_index_le s L hL
    have hlt : char_index s L < s.data.length :=
      Nat.lt_of_le_of_lt hle (Nat.sub_lt hpos Nat.one_pos)
    exact ⟨hle, by rw [List.get?_eq_get hlt]; rfl⟩
  · intro s h
    have hidx : char_index s 255 = s.utf8ByteSize - 1 := char_index_255 s
    have hge : s.length ≤ s.utf8ByteSize - 1 := Nat.le_sub_one_of_lt h
    refine ⟨hidx ▸ hge, ?_⟩
    rw [ascii_char, hidx, List.get?_eq_none.mpr (show s.data.length ≤ s.utf8ByteSize - 1 from hge),
      Option.getD_none]

/-- C10 witness: the live-branch half applied to the all-single-byte
default ramp at luminance 255, and the fallback half applied to the
two-byte charset of a single e-acute character. -/
theorem C10_byte_vs_char_indexing_witness :
    (defaultRamp.data.get? (char_index defaultRamp 255)).isSome = true ∧
    ascii_char "é" 255 = ' ' :=
  ⟨(C10_byte_vs_char_indexing.1 defaultRamp 255 (by norm_num) rfl (by decide)).2,
   (C10_byte_vs_char_indexing.2 "é" (by decide)).2⟩
